import Mathlib

/-!
Verification development for the solo-board Excalidraw adapter layer
(frontend/lib/excalidraw/adapter.ts) and the autosave coordinator of the
editor page (frontend/app/editor/[id]/page.tsx).

The JavaScript data values flowing through the adapter are JSON-compatible
values; objects are modelled as association lists preserving key insertion
order, which is exactly the order JSON.stringify and object spread observe.
-/

namespace SoloBoard

/-- JSON-compatible runtime value (the `unknown` payloads of the adapter).
Objects keep their fields in insertion order, as JavaScript objects do. -/
inductive Value where
  | vNull
  | vBool (b : Bool)
  | vNum (n : Int)
  | vStr (s : String)
  | vArr (elems : List Value)
  | vObj (fields : List (String × Value))

/-- A JavaScript object value as seen by the adapter
(TypeScript type Record of string to unknown). -/
abbrev JsObj := List (String × Value)

/-- First-match lookup of a key, the semantics of reading a property. -/
def lookupKey : JsObj → String → Option Value
  | [], _ => none
  | (k', v) :: rest, k => if k' = k then some v else lookupKey rest k

/-- Property assignment on an object copy: update the existing entry in
place (JavaScript preserves key order on assignment), or append the key
at the end when it was absent. -/
def setKey : JsObj → String → Value → JsObj
  | [], k, v => [(k, v)]
  | (k', v') :: rest, k, v =>
      if k' = k then (k, v) :: rest else (k', v') :: setKey rest k v

@[simp]
theorem lookupKey_setKey_self (o : JsObj) (k : String) (v : Value) :
    lookupKey (setKey o k v) k = some v := by
  induction o with
  | nil => simp [setKey, lookupKey]
  | cons hd tl ih =>
      obtain ⟨k', v'⟩ := hd
      by_cases h : k' = k <;> simp [setKey, lookupKey, h, ih]

theorem lookupKey_setKey_ne (o : JsObj) {k k' : String} (v : Value) (h : k' ≠ k) :
    lookupKey (setKey o k' v) k = lookupKey o k := by
  induction o with
  | nil => simp [setKey, lookupKey, h]
  | cons hd tl ih =>
      obtain ⟨k₀, v₀⟩ := hd
      by_cases h₀ : k₀ = k'
      · subst h₀
        simp [setKey, lookupKey, h]
      · simp [setKey, lookupKey, h₀]
        split <;> simp [ih]

theorem setKey_eq_of_lookup (o : JsObj) {k : String} {v : Value}
    (h : lookupKey o k = some v) : setKey o k v = o := by
  induction o with
  | nil => simp [lookupKey] at h
  | cons hd tl ih =>
      obtain ⟨k₀, v₀⟩ := hd
      by_cases h₀ : k₀ = k
      · subst h₀
        simp [lookupKey] at h
        simp [setKey, h]
      · simp [lookupKey, h₀] at h
        simp [setKey, h₀, ih h]

/-- Escaping applied by JSON.stringify to string payloads. -/
def jsonEscape (s : String) : String :=
  s.foldl (fun acc c =>
    if c = '"' then acc ++ "\\\""
    else if c = '\\' then acc ++ "\\\\"
    else if c = '\n' then acc ++ "\\n"
    else if c = '\r' then acc ++ "\\r"
    else if c = '\t' then acc ++ "\\t"
    else acc.push c) ""

mutual

/-- JSON.stringify on a runtime value: deterministic serialization that
keeps object fields in insertion order. -/
def stringifyValue : Value → String
  | .vNull => "null"
  | .vBool b => if b then "true" else "false"
  | .vNum n => toString n
  | .vStr s => "\"" ++ jsonEscape s ++ "\""
  | .vArr xs => "[" ++ stringifyElems xs ++ "]"
  | .vObj fs => "\x7b" ++ stringifyFields fs ++ "\x7d"

/-- Comma-separated serialization of array elements. -/
def stringifyElems : List Value → String
  | [] => ""
  | [x] => stringifyValue x
  | x :: y :: xs => stringifyValue x ++ "," ++ stringifyElems (y :: xs)

/-- Comma-separated serialization of object fields. -/
def stringifyFields : List (String × Value) → String
  | [] => ""
  | [(k, v)] => "\"" ++ jsonEscape k ++ "\":" ++ stringifyValue v
  | (k, v) :: f :: fs =>
      "\"" ++ jsonEscape k ++ "\":" ++ stringifyValue v ++ "," ++ stringifyFields (f :: fs)

end

/-- Coercion of a single array element inside the JavaScript array join:
null joins as the empty string, primitives print their literal form, a
nested array is approximated by the empty string (the adapter never sees
nested arrays in a colour position), objects print as object Object. -/
def jsAtomToString : Value → String
  | .vNull => ""
  | .vBool b => if b then "true" else "false"
  | .vNum n => toString n
  | .vStr s => s
  | .vArr _ => ""
  | .vObj _ => "[object Object]"

/-- The JavaScript string coercion String(v) used by the background-colour
check: strings pass through, primitives print, arrays join their
elements with commas, plain objects print as object Object. -/
def jsToString : Value → String
  | .vNull => "null"
  | .vBool b => if b then "true" else "false"
  | .vNum n => toString n
  | .vStr s => s
  | .vArr xs => String.intercalate "," (xs.map jsAtomToString)
  | .vObj _ => "[object Object]"

/-- The last two UTF-16 units of a string, the value of slice applied at
position minus two in the source. -/
def sliceLast2 (s : String) : String :=
  String.mk (s.data.drop (s.data.length - 2))

/-- ASCII lowercasing, the effect of toLowerCase on the colour strings
the adapter handles. -/
def jsToLower (s : String) : String :=
  String.mk (s.data.map Char.toLower)

/-- The isMissingOrTransparent test of normalizeAppStateForCanvas, as a
function of the looked-up viewBackgroundColor property: missing, loose
equal to null, the empty string, case-insensitive transparent after
string coercion, or a string of length at least two whose last two
characters lowercase to 00. -/
def isMissingOrTransparentBg : Option Value → Bool
  | none => true
  | some v =>
      (match v with | .vNull => true | _ => false)
      || (match v with | .vStr s => s == "" | _ => false)
      || jsToLower (jsToString v) == "transparent"
      || (match v with
          | .vStr s => decide (2 ≤ s.length) && jsToLower (sliceLast2 s) == "00"
          | _ => false)

/-- The exportBackground test: strict equality with undefined or null. -/
def isMissingOrNullExportBg : Option Value → Bool
  | none => true
  | some .vNull => true
  | some _ => false

/-- normalizeAppStateForCanvas from adapter.ts: force an opaque white
background when the colour is missing or transparent, default
exportBackground to true, and switch the grid off by storing a null
gridSize. -/
def normalizeAppStateForCanvas (appState : JsObj) : JsObj :=
  let next :=
    if isMissingOrTransparentBg (lookupKey appState "viewBackgroundColor") then
      setKey appState "viewBackgroundColor" (.vStr "#ffffff")
    else appState
  let next :=
    if isMissingOrNullExportBg (lookupKey appState "exportBackground") then
      setKey next "exportBackground" (.vBool true)
    else next
  setKey next "gridSize" .vNull

/-- The collaborators coercion applied before normalization: when the key
is present, keep arrays and replace any other value by the list of its
own property values (empty for null, characters for strings, field
values for objects, nothing for other primitives). -/
def coerceCollaborators (appState : JsObj) : JsObj :=
  match lookupKey appState "collaborators" with
  | none => appState
  | some c =>
      setKey appState "collaborators"
        (match c with
         | .vArr xs => .vArr xs
         | .vNull => .vArr []
         | .vObj fs => .vArr (fs.map (·.2))
         | .vStr s => .vArr (s.data.map fun ch => .vStr (String.singleton ch))
         | _ => .vArr [])

/-- The full display-normalization pass run on a view-state before it is
handed to the GUI instance: collaborators coercion followed by
normalizeAppStateForCanvas. -/
def normalizeDisplay (appState : JsObj) : JsObj :=
  normalizeAppStateForCanvas (coerceCollaborators appState)

/-- Detail attached to an error event: which fallible step of load threw. -/
inductive LoadErrorDetail where
  | parseError
  | restoreError
deriving DecidableEq

/-- ExcalidrawAdapterEvent from adapter.ts. -/
inductive AdapterEvent where
  | ready
  | change (dirty : Bool)
  | error (message : String) (detail : LoadErrorDetail)

/-- The minimal GUI-instance state behind the ExcalidrawApiLike contract:
updateScene writes these three parts, the getters read them back. -/
structure ApiState where
  elements : List Value
  appState : JsObj
  files : JsObj

/-- The private fields of ExcalidrawAdapterImpl. -/
structure AdapterState where
  api : Option ApiState
  dirty : Bool
  pendingContent : Option String
  lastSavedSnapshot : Option String

/-- Field initializers of ExcalidrawAdapterImpl: unbound, clean, nothing
pending, no saved baseline. -/
def initialAdapterState : AdapterState :=
  { api := none, dirty := false, pendingContent := none, lastSavedSnapshot := none }

/-- The content argument accepted by load: a string, an object, or null. -/
inductive LoadContent where
  | str (s : String)
  | obj (v : Value)
  | nil

/-- How an unbound load stores content as pendingContent: null stays null,
strings pass through, objects are serialized with JSON.stringify. -/
def encodeContent : LoadContent → Option String
  | .nil => none
  | .str s => some s
  | .obj v => some (stringifyValue v)

/-- The external restore function of the GUI library, modelled as an
oracle over the three scene parts; none models a thrown exception. -/
abbrev RestoreFn :=
  List Value → JsObj → JsObj → Option (List Value × JsObj × JsObj)

/-- Property read on a runtime value; none when the value is not an
object or lacks the key. -/
def getField (v : Value) (k : String) : Option Value :=
  match v with
  | .vObj fs => lookupKey fs k
  | _ => none

/-- First stage of load inside the try block: empty strings and null
parse to a null document, other strings go through JSON.parse (modelled
by the parse oracle, none modelling a thrown SyntaxError), objects pass
through. -/
def parseStage (parse : String → Option Value) :
    LoadContent → Except LoadErrorDetail (Option Value)
  | .str s =>
      if s = "" then .ok none
      else
        match parse s with
        | some v => .ok (some v)
        | none => .error .parseError
  | .obj v => .ok (some v)
  | .nil => .ok none

/-- The native-schema test: schema is the solo-board content tag and
schemaVersion is the number one. -/
def isNativeSchema (parsed : Option Value) : Bool :=
  match parsed with
  | none => false
  | some p =>
      (match getField p "schema" with
       | some (.vStr s) => s == "solo-board/excalidraw-content"
       | _ => false)
      && (match getField p "schemaVersion" with
          | some (.vNum n) => n == 1
          | _ => false)

/-- The elements field of the parsed document, defaulting to the empty
array (the schema declares an array; non-array payloads degenerate to
empty, which is how the downstream length checks consume them). -/
def extractElements (parsed : Option Value) : List Value :=
  match parsed with
  | none => []
  | some p =>
      match getField p "elements" with
      | some (.vArr xs) => xs
      | _ => []

/-- An object-typed field of the parsed document (appState or files),
defaulting to the empty record. -/
def extractObjField (parsed : Option Value) (k : String) : JsObj :=
  match parsed with
  | none => []
  | some p =>
      match getField p k with
      | some (.vObj fs) => fs
      | _ => []

/-- The three scene parts handed to updateScene. -/
structure SceneParts where
  elements : List Value
  appState : JsObj
  files : JsObj

/-- The pure content pipeline of a bound load, from raw content to the
scene parts written into the GUI instance: parse, extract the three
parts, run the restore pass for non-trivial foreign documents, coerce
collaborators to an array, normalize the view-state for display. An
error value models an exception caught by the surrounding try block. -/
def processContent (parse : String → Option Value) (restore : RestoreFn)
    (c : LoadContent) : Except LoadErrorDetail SceneParts :=
  match parseStage parse c with
  | .error d => .error d
  | .ok parsed =>
      let elements := extractElements parsed
      let appState := extractObjField parsed "appState"
      let files := extractObjField parsed "files"
      let restored :=
        if !isNativeSchema parsed
            && (!elements.isEmpty || !appState.isEmpty || !files.isEmpty) then
          match restore elements appState files with
          | none => Except.error LoadErrorDetail.restoreError
          | some (e, a, f) => Except.ok (e, a, f)
        else Except.ok (elements, appState, files)
      match restored with
      | .error d => .error d
      | .ok (e, a, f) =>
          .ok ⟨e, normalizeAppStateForCanvas (coerceCollaborators a), f⟩

/-- createSnapshotFromParts: the JSON.stringify fingerprint of elements,
appState and files used for dirty comparison; no other input (in
particular no timestamp) enters it. -/
def createSnapshotFromParts (elements : List Value) (appState files : JsObj) : String :=
  stringifyValue
    (.vObj [("elements", .vArr elements), ("appState", .vObj appState),
            ("files", .vObj files)])

/-- ExcalidrawAdapterImpl.load. Unbound: record pendingContent and return
with no events. Bound: run the content pipeline; on failure emit one
error event and keep every field unchanged; on success write the scene
into the GUI instance, store the fresh saved baseline, clear
pendingContent and the dirty flag, and emit one change event. -/
def load (parse : String → Option Value) (restore : RestoreFn)
    (st : AdapterState) (c : LoadContent) : AdapterState × List AdapterEvent :=
  match st.api with
  | none => ({ st with pendingContent := encodeContent c }, [])
  | some _ =>
      match processContent parse restore c with
      | .error d => (st, [.error "Failed to load content" d])
      | .ok parts =>
          ({ st with
              api := some ⟨parts.elements, parts.appState, parts.files⟩,
              lastSavedSnapshot :=
                some (createSnapshotFromParts parts.elements parts.appState parts.files),
              pendingContent := none,
              dirty := false },
           [.change false])

/-- The native-schema envelope returned by serialize. -/
structure SoloBoardExcalidrawContentV1 where
  schema : String
  schemaVersion : Nat
  elements : List Value
  appState : JsObj
  files : JsObj
  updatedAt : Int

/-- ExcalidrawAdapterImpl.serialize at wall-clock second now: reads the
three parts from the GUI instance and wraps them in the tagged envelope;
none models the thrown API-not-ready error when unbound. -/
def serialize (st : AdapterState) (now : Int) : Option SoloBoardExcalidrawContentV1 :=
  match st.api with
  | none => none
  | some a =>
      some ⟨"solo-board/excalidraw-content", 1, a.elements, a.appState, a.files, now⟩

/-- ExcalidrawAdapterImpl.isDirty: returns the cached flag. -/
def isDirty (st : AdapterState) : Bool :=
  st.dirty

/-- ExcalidrawAdapterImpl.markSaved: silently return when unbound;
otherwise store the snapshot of the live GUI parts as the new baseline,
clear the dirty flag and emit one change event. -/
def markSaved (st : AdapterState) : AdapterState × List AdapterEvent :=
  match st.api with
  | none => (st, [])
  | some a =>
      ({ st with
          lastSavedSnapshot :=
            some (createSnapshotFromParts a.elements a.appState a.files),
          dirty := false },
       [.change false])

/-- ExcalidrawAdapterImpl.setTheme: when bound, push a view-state-only
update carrying the theme into the GUI instance; nothing else changes
and nothing is emitted. -/
def setTheme (st : AdapterState) (theme : String) : AdapterState × List AdapterEvent :=
  match st.api with
  | none => (st, [])
  | some a =>
      ({ st with api := some { a with appState := setKey a.appState "theme" (.vStr theme) } },
       [])

/-- ExcalidrawAdapterImpl.handleChange: no-op when unbound; otherwise
recompute the snapshot of the live GUI parts, compare it by string value
against the saved baseline (a null baseline always differs), and emit
one change event exactly when the resulting flag differs from the cached
one. -/
def handleChange (st : AdapterState) : AdapterState × List AdapterEvent :=
  match st.api with
  | none => (st, [])
  | some a =>
      let current := createSnapshotFromParts a.elements a.appState a.files
      let dirtyNow : Bool := some current != st.lastSavedSnapshot
      if dirtyNow != st.dirty then
        ({ st with dirty := dirtyNow }, [.change dirtyNow])
      else (st, [])

/-- ExcalidrawAdapterImpl.bindApi: store the instance reference; with a
non-null instance, either hand the captured pendingContent to a deferred
one-tick task (clearing pendingContent, emitting nothing yet) or emit
ready at once; a null instance only clears the reference. The third
component is the scheduled task payload. -/
def bindApi (st : AdapterState) (api : Option ApiState) :
    AdapterState × List AdapterEvent × Option String :=
  match api with
  | none => ({ st with api := none }, [], none)
  | some a =>
      let st := { st with api := some a }
      match st.pendingContent with
      | some c => ({ st with pendingContent := none }, [], some c)
      | none => (st, [.ready], none)

/-- The deferred one-tick task scheduled by bindApi: when the instance is
still bound, run load on the captured content and emit ready after it
completes; otherwise just emit ready. -/
def deferredFire (parse : String → Option Value) (restore : RestoreFn)
    (st : AdapterState) (c : String) : AdapterState × List AdapterEvent :=
  match st.api with
  | some _ =>
      let r := load parse restore st (.str c)
      (r.1, r.2 ++ [.ready])
  | none => (st, [.ready])

/-- A sequence of load calls, threading the state and concatenating the
emitted events. -/
def loadAll (parse : String → Option Value) (restore : RestoreFn)
    (st : AdapterState) : List LoadContent → AdapterState × List AdapterEvent
  | [] => (st, [])
  | c :: cs =>
      let r := load parse restore st c
      let r' := loadAll parse restore r.1 cs
      (r'.1, r.2 ++ r'.2)

/-- The trigger of a save attempt in the editor page. -/
inductive SaveSource where
  | manual
  | auto

/-- The coordinator state of the editor page: the loading, dirty and
saving React state values, the pendingAutoSaveRef and isMountedRef refs,
plus two ghost counters: inFlight counts save operations started and not
yet completed, graceQueued counts save attempts queued by the 200
millisecond grace timeout. -/
structure SaveState where
  loading : Bool
  dirty : Bool
  saving : Bool
  pendingAutoSave : Bool
  mounted : Bool
  inFlight : Nat
  graceQueued : Nat
deriving DecidableEq

/-- The coordinator state when the editor page mounts: still loading,
clean, no save running or pending. -/
def initialSaveState : SaveState :=
  { loading := true, dirty := false, saving := false, pendingAutoSave := false,
    mounted := true, inFlight := 0, graceQueued := 0 }

/-- The synchronous prefix of performSave, up to its first await: return
while loading or clean; when a save is already in flight, coalesce an
automatic trigger into the pending flag (a manual trigger just returns);
otherwise mark saving and start one save operation. -/
def performSaveStart (s : SaveState) (source : SaveSource) : SaveState :=
  if s.loading then s
  else if !s.dirty then s
  else if s.saving then
    match source with
    | .auto => { s with pendingAutoSave := true }
    | .manual => s
  else { s with saving := true, inFlight := s.inFlight + 1 }

/-- The resumption of performSave after the store write settles: on
success markSaved has cleared the dirty flag; the finally block drops the
saving flag, and, when the component is still mounted and the pending
flag was set meanwhile, consumes the flag and queues exactly one more
save attempt behind the 200 millisecond grace timeout. -/
def performSaveFinish (s : SaveState) (success : Bool) : SaveState :=
  let s := { s with
    saving := false,
    inFlight := s.inFlight - 1,
    dirty := if success then false else s.dirty }
  if !s.mounted then s
  else if s.pendingAutoSave then
    { s with pendingAutoSave := false, graceQueued := s.graceQueued + 1 }
  else s

/-- The grace timeout firing: consume one queued attempt and run the
synchronous prefix of an automatic performSave. -/
def graceFire (s : SaveState) : SaveState :=
  if 0 < s.graceQueued then
    performSaveStart { s with graceQueued := s.graceQueued - 1 } .auto
  else s

/-- One event of the editor page: finishing or restarting the initial
content load, a user edit flipping the dirty flag, the debounce timer or
the manual button starting performSave, an in-flight save settling, the
grace timeout firing, the component unmounting. -/
inductive SaveStep : SaveState → SaveState → Prop where
  | finishLoading (s : SaveState) : SaveStep s { s with loading := false }
  | startLoading (s : SaveState) : SaveStep s { s with loading := true, dirty := false }
  | edit (s : SaveState) : SaveStep s { s with dirty := true }
  | debounce (s : SaveState) : SaveStep s (performSaveStart s .auto)
  | manual (s : SaveState) : SaveStep s (performSaveStart s .manual)
  | complete (s : SaveState) (success : Bool) (h : 0 < s.inFlight) :
      SaveStep s (performSaveFinish s success)
  | grace (s : SaveState) : SaveStep s (graceFire s)
  | unmount (s : SaveState) : SaveStep s { s with mounted := false }

/-- The coordinator states reachable from the initial page state. -/
def ReachableSave (s : SaveState) : Prop :=
  Relation.ReflTransGen SaveStep initialSaveState s

/-- C10: while the adapter is unbound, markSaved is a silent no-op: it
returns the state untouched (dirty flag, saved baseline and pending
content keep their prior values) and emits no event; in particular a
dirty flag that was true before unbinding stays true. -/
theorem c10_markSaved_unbound_noop (st : AdapterState) (h : st.api = none) :
    markSaved st = (st, []) := by
  simp [markSaved, h]

/-- Witness for C10 at a concrete unbound, dirty state. -/
theorem c10_markSaved_unbound_noop_witness :
    markSaved { api := none, dirty := true, pendingContent := none,
                lastSavedSnapshot := some "snap" } =
      ({ api := none, dirty := true, pendingContent := none,
         lastSavedSnapshot := some "snap" }, []) :=
  c10_markSaved_unbound_noop _ rfl

/-- C9: setTheme pushes only a view-state update into the GUI instance
and has no dirty-flag effect: the dirty flag, the saved baseline and the
pending content are unchanged, no event is emitted, and on a bound
adapter the GUI write only merges the theme key into the view-state. -/
theorem c9_setTheme_frame (st : AdapterState) (theme : String) :
    (setTheme st theme).2 = []
    ∧ isDirty (setTheme st theme).1 = isDirty st
    ∧ (setTheme st theme).1.lastSavedSnapshot = st.lastSavedSnapshot
    ∧ (setTheme st theme).1.pendingContent = st.pendingContent
    ∧ (∀ a, st.api = some a →
        (setTheme st theme).1.api =
          some { a with appState := setKey a.appState "theme" (.vStr theme) }) := by
  cases h : st.api with
  | none =>
      refine ⟨by simp [setTheme, h], by simp [setTheme, h, isDirty], by simp [setTheme, h],
        by simp [setTheme, h], ?_⟩
      intro a ha
      exact absurd ha (by simp)
  | some a =>
      refine ⟨by simp [setTheme, h], by simp [setTheme, h, isDirty],
        by simp [setTheme, h], by simp [setTheme, h], ?_⟩
      intro a' ha'
      obtain rfl := Option.some.inj ha'
      simp [setTheme, h]

/-- Witness for C9 at a concrete bound, dirty state. -/
theorem c9_setTheme_frame_witness :
    (setTheme { api := some ⟨[], [], []⟩, dirty := true, pendingContent := none,
                lastSavedSnapshot := none } "dark").2 = []
    ∧ isDirty (setTheme { api := some ⟨[], [], []⟩, dirty := true, pendingContent := none,
                          lastSavedSnapshot := none } "dark").1 =
        isDirty { api := some ⟨[], [], []⟩, dirty := true, pendingContent := none,
                  lastSavedSnapshot := none } :=
  ⟨(c9_setTheme_frame _ "dark").1, (c9_setTheme_frame _ "dark").2.1⟩

/-- On a bound state whose value-compared dirty state already equals the
cached flag, handleChange is an eventless no-op. -/
theorem handleChange_clean_flag (st : AdapterState) (a : ApiState) (h : st.api = some a)
    (hflag : (some (createSnapshotFromParts a.elements a.appState a.files)
        != st.lastSavedSnapshot) = st.dirty) :
    handleChange st = (st, []) := by
  unfold handleChange
  rw [h]
  simp [hflag]

/-- On a bound state that is clean and whose baseline already equals the
snapshot of the live parts, handleChange is an eventless no-op. -/
theorem handleChange_clean (st : AdapterState) (a : ApiState) (h : st.api = some a)
    (hsnap : st.lastSavedSnapshot =
      some (createSnapshotFromParts a.elements a.appState a.files))
    (hdirty : st.dirty = false) :
    handleChange st = (st, []) := by
  exact handleChange_clean_flag st a h (by rw [hsnap, hdirty]; simp)

/-- C5: the baseline stored by markSaved is the snapshot of the three
GUI parts only (no wall-clock field enters it), and markSaved followed
immediately by handleChange with no intervening edit leaves the adapter
clean and emits nothing further. -/
theorem c5_saved_baseline_excludes_time (st : AdapterState) (a : ApiState)
    (h : st.api = some a) :
    (markSaved st).1.lastSavedSnapshot =
      some (createSnapshotFromParts a.elements a.appState a.files)
    ∧ isDirty (markSaved st).1 = false
    ∧ (handleChange (markSaved st).1).2 = []
    ∧ isDirty (handleChange (markSaved st).1).1 = false := by
  have hmark : markSaved st =
      ({ st with
          lastSavedSnapshot :=
            some (createSnapshotFromParts a.elements a.appState a.files),
          dirty := false }, [.change false]) := by
    unfold markSaved
    rw [h]
  have hhc : handleChange
      { st with
          lastSavedSnapshot :=
            some (createSnapshotFromParts a.elements a.appState a.files),
          dirty := false } =
      ({ st with
          lastSavedSnapshot :=
            some (createSnapshotFromParts a.elements a.appState a.files),
          dirty := false }, []) :=
    handleChange_clean _ a h rfl rfl
  rw [hmark]
  exact ⟨rfl, rfl, by rw [hhc], by rw [hhc]; rfl⟩

/-- Witness for C5 at a concrete bound state with a stale baseline. -/
theorem c5_saved_baseline_excludes_time_witness :
    (markSaved { api := some ⟨[Value.vNum 1], [], []⟩, dirty := true,
                 pendingContent := none, lastSavedSnapshot := none }).1.lastSavedSnapshot =
      some (createSnapshotFromParts [Value.vNum 1] [] [])
    ∧ isDirty (markSaved { api := some ⟨[Value.vNum 1], [], []⟩, dirty := true,
                           pendingContent := none, lastSavedSnapshot := none }).1 = false
    ∧ (handleChange (markSaved { api := some ⟨[Value.vNum 1], [], []⟩, dirty := true,
                                 pendingContent := none, lastSavedSnapshot := none }).1).2 = []
    ∧ isDirty (handleChange (markSaved { api := some ⟨[Value.vNum 1], [], []⟩, dirty := true,
                                         pendingContent := none,
                                         lastSavedSnapshot := none }).1).1 = false :=
  c5_saved_baseline_excludes_time
    { api := some ⟨[Value.vNum 1], [], []⟩, dirty := true,
      pendingContent := none, lastSavedSnapshot := none }
    ⟨[Value.vNum 1], [], []⟩ rfl

/-- C4: handleChange emits at most one change event, it emits nothing
exactly when the value-compared dirty state already equals the cached
flag, and a second handleChange with the same underlying GUI state never
emits a second event. -/
theorem c4_handleChange_emits_only_on_flip (st : AdapterState) :
    (handleChange st).2.length ≤ 1
    ∧ (handleChange (handleChange st).1).2 = []
    ∧ (∀ a, st.api = some a →
        (((handleChange st).2 = []) ↔
          ((some (createSnapshotFromParts a.elements a.appState a.files)
              != st.lastSavedSnapshot) = st.dirty))) := by
  cases hapi : st.api with
  | none =>
      refine ⟨by simp [handleChange, hapi], by simp [handleChange, hapi], ?_⟩
      intro a ha
      exact absurd ha (by simp)
  | some a =>
      by_cases hd : (some (createSnapshotFromParts a.elements a.appState a.files)
          != st.lastSavedSnapshot) = st.dirty
      · have h1 : handleChange st = (st, []) := handleChange_clean_flag st a hapi hd
        refine ⟨by simp [h1], by simp [h1], ?_⟩
        intro a' ha'
        obtain rfl := Option.some.inj ha'
        simp [h1, hd]
      · have hd' : (some (createSnapshotFromParts a.elements a.appState a.files)
            != st.lastSavedSnapshot) = !st.dirty := by
          revert hd
          cases hb : (some (createSnapshotFromParts a.elements a.appState a.files)
              != st.lastSavedSnapshot) <;> cases hc : st.dirty <;> simp
        have h1 : handleChange st =
            ({ st with dirty := !st.dirty }, [.change (!st.dirty)]) := by
          unfold handleChange
          rw [hapi]
          simp [hd']
        have h2 : handleChange { st with dirty := !st.dirty } =
            ({ st with dirty := !st.dirty }, []) := by
          refine handleChange_clean_flag _ a ?_ ?_ <;> simp [hapi, hd']
        refine ⟨by simp [h1], by simp [h1, h2], ?_⟩
        intro a' ha'
        obtain rfl := Option.some.inj ha'
        simp [h1, hd']

/-- Witness for C4 at a concrete bound state with no baseline. -/
theorem c4_handleChange_emits_only_on_flip_witness :
    (handleChange { api := some ⟨[], [], []⟩, dirty := true, pendingContent := none,
                    lastSavedSnapshot := none }).2.length ≤ 1
    ∧ (handleChange (handleChange { api := some ⟨[], [], []⟩, dirty := true,
                                    pendingContent := none,
                                    lastSavedSnapshot := none }).1).2 = [] :=
  ⟨(c4_handleChange_emits_only_on_flip _).1, (c4_handleChange_emits_only_on_flip _).2.1⟩

/-- Whether the first character of a string is the hash sign. -/
def firstCharIsHash (s : String) : Bool :=
  match s.data with
  | [] => false
  | c :: _ => c == '#'

/-- The background-colour condition as the claim words it, for comparison
with the implemented test: absent, null, the empty string, the literal
transparent case-insensitively, or a colour string carrying a
fully-transparent alpha channel, read as an eight-hex-digit hash colour
whose trailing alpha byte is 00. Stated from the specification text, not
from the source. -/
def claimedTransparentBg : Option Value → Bool
  | none => true
  | some .vNull => true
  | some (.vStr s) =>
      s == "" || jsToLower s == "transparent"
      || (firstCharIsHash s && s.length == 9 && jsToLower (sliceLast2 s) == "00")
  | some _ => false

/-- Counterexample to C3 as stated: the opaque six-digit colour hash
ff0000 (pure red) carries no alpha channel, so the claim says it must be
preserved, yet the implemented test fires on any string whose last two
characters are 00 and replaces it with opaque white. -/
theorem c3_background_default_counterexample :
    claimedTransparentBg (some (Value.vStr "#ff0000")) = false
    ∧ lookupKey
        (normalizeAppStateForCanvas [("viewBackgroundColor", Value.vStr "#ff0000")])
        "viewBackgroundColor" = some (Value.vStr "#ffffff") :=
  ⟨rfl, rfl⟩

/-- C3 (amended): viewBackgroundColor is set to the opaque default
exactly when the incoming value is absent, null, the empty string,
coerces case-insensitively to the literal transparent, or is any string
of length at least two whose last two characters lowercase to 00 (which
includes opaque six-digit colours ending in 00); every other value is
preserved unchanged. -/
theorem c3_background_default_amended (appState : JsObj) :
    lookupKey (normalizeAppStateForCanvas appState) "viewBackgroundColor" =
      (if isMissingOrTransparentBg (lookupKey appState "viewBackgroundColor") then
        some (Value.vStr "#ffffff")
      else lookupKey appState "viewBackgroundColor") := by
  have hg : ∀ (x : JsObj) (v : Value),
      lookupKey (setKey x "gridSize" v) "viewBackgroundColor" =
        lookupKey x "viewBackgroundColor" :=
    fun x v => lookupKey_setKey_ne x v (by decide)
  have he : ∀ (x : JsObj) (v : Value),
      lookupKey (setKey x "exportBackground" v) "viewBackgroundColor" =
        lookupKey x "viewBackgroundColor" :=
    fun x v => lookupKey_setKey_ne x v (by decide)
  simp only [normalizeAppStateForCanvas]
  cases hv : isMissingOrTransparentBg (lookupKey appState "viewBackgroundColor") <;>
    cases hx : isMissingOrNullExportBg (lookupKey appState "exportBackground") <;>
      simp [hv, hx, hg, he]

/-- After normalizeAppStateForCanvas the background colour no longer
satisfies the missing-or-transparent test. -/
theorem normalize_vbc_resolved (o : JsObj) :
    isMissingOrTransparentBg
      (lookupKey (normalizeAppStateForCanvas o) "viewBackgroundColor") = false := by
  rw [c3_background_default_amended]
  cases hv : isMissingOrTransparentBg (lookupKey o "viewBackgroundColor") <;> simp [hv]
  rfl

/-- After normalizeAppStateForCanvas the exportBackground flag is present
and non-null. -/
theorem normalize_export_resolved (o : JsObj) :
    isMissingOrNullExportBg
      (lookupKey (normalizeAppStateForCanvas o) "exportBackground") = false := by
  have hg : ∀ (x : JsObj) (v : Value),
      lookupKey (setKey x "gridSize" v) "exportBackground" =
        lookupKey x "exportBackground" :=
    fun x v => lookupKey_setKey_ne x v (by decide)
  have hb : ∀ (x : JsObj) (v : Value),
      lookupKey (setKey x "viewBackgroundColor" v) "exportBackground" =
        lookupKey x "exportBackground" :=
    fun x v => lookupKey_setKey_ne x v (by decide)
  simp only [normalizeAppStateForCanvas]
  cases hx : isMissingOrNullExportBg (lookupKey o "exportBackground") <;>
    cases hv : isMissingOrTransparentBg (lookupKey o "viewBackgroundColor") <;>
      simp [hx, hv, hg, hb] <;> rfl

/-- After normalizeAppStateForCanvas the grid size is stored as null. -/
theorem normalize_grid_resolved (o : JsObj) :
    lookupKey (normalizeAppStateForCanvas o) "gridSize" = some .vNull := by
  simp only [normalizeAppStateForCanvas]
  rw [lookupKey_setKey_self]

/-- normalizeAppStateForCanvas only touches the three display keys. -/
theorem normalize_other_key (o : JsObj) (k : String)
    (h1 : k ≠ "viewBackgroundColor") (h2 : k ≠ "exportBackground")
    (h3 : k ≠ "gridSize") :
    lookupKey (normalizeAppStateForCanvas o) k = lookupKey o k := by
  have a1 : ∀ (x : JsObj) (v : Value),
      lookupKey (setKey x "viewBackgroundColor" v) k = lookupKey x k :=
    fun x v => lookupKey_setKey_ne x v (Ne.symm h1)
  have a2 : ∀ (x : JsObj) (v : Value),
      lookupKey (setKey x "exportBackground" v) k = lookupKey x k :=
    fun x v => lookupKey_setKey_ne x v (Ne.symm h2)
  have a3 : ∀ (x : JsObj) (v : Value),
      lookupKey (setKey x "gridSize" v) k = lookupKey x k :=
    fun x v => lookupKey_setKey_ne x v (Ne.symm h3)
  simp only [normalizeAppStateForCanvas]
  cases hv : isMissingOrTransparentBg (lookupKey o "viewBackgroundColor") <;>
    cases hx : isMissingOrNullExportBg (lookupKey o "exportBackground") <;>
      simp [hv, hx, a1, a2, a3]

/-- An object on which every normalization test is already resolved is a
fixed point of normalizeAppStateForCanvas. -/
theorem normalize_fixed (o : JsObj)
    (h1 : isMissingOrTransparentBg (lookupKey o "viewBackgroundColor") = false)
    (h2 : isMissingOrNullExportBg (lookupKey o "exportBackground") = false)
    (h3 : lookupKey o "gridSize" = some .vNull) :
    normalizeAppStateForCanvas o = o := by
  simp only [normalizeAppStateForCanvas]
  rw [h1, h2]
  simp [setKey_eq_of_lookup o h3]

/-- Whether a looked-up collaborators value is absent or already an
array, the shape the coercion guarantees. -/
def collabResolved : Option Value → Bool
  | none => true
  | some (.vArr _) => true
  | _ => false

/-- After coerceCollaborators the collaborators value is absent or an
array. -/
theorem coerce_collab_resolved (o : JsObj) :
    collabResolved (lookupKey (coerceCollaborators o) "collaborators") = true := by
  unfold coerceCollaborators
  split
  · rename_i h
    rw [h]
    rfl
  · rename_i c h
    rw [lookupKey_setKey_self]
    cases c <;> rfl

/-- coerceCollaborators only touches the collaborators key. -/
theorem coerce_other_key (o : JsObj) (k : String) (h : k ≠ "collaborators") :
    lookupKey (coerceCollaborators o) k = lookupKey o k := by
  unfold coerceCollaborators
  split
  · rfl
  · rw [lookupKey_setKey_ne _ _ (Ne.symm h)]

/-- An object whose collaborators value is already resolved is a fixed
point of coerceCollaborators. -/
theorem coerce_fixed (o : JsObj)
    (h : collabResolved (lookupKey o "collaborators") = true) :
    coerceCollaborators o = o := by
  unfold coerceCollaborators
  split
  · rfl
  · rename_i c hc
    rw [hc] at h
    cases c <;> simp [collabResolved] at h
    exact setKey_eq_of_lookup o hc

/-- C8: the display-normalization pass (collaborators coercion,
background defaulting, export-background defaulting, grid forced off) is
idempotent: applying it twice yields exactly the view-state of applying
it once. -/
theorem c8_normalizeDisplay_idempotent (appState : JsObj) :
    normalizeDisplay (normalizeDisplay appState) = normalizeDisplay appState := by
  unfold normalizeDisplay
  rw [coerce_fixed (normalizeAppStateForCanvas (coerceCollaborators appState))
      (by rw [normalize_other_key _ _ (by decide) (by decide) (by decide)]
          exact coerce_collab_resolved appState)]
  exact normalize_fixed _ (normalize_vbc_resolved _) (normalize_export_resolved _)
    (normalize_grid_resolved _)

/-- While unbound, a sequence of load calls only rewrites pendingContent:
the last content wins, every other field is untouched and nothing is
emitted. -/
theorem loadAll_unbound (parse : String → Option Value) (restore : RestoreFn)
    (st : AdapterState) (hapi : st.api = none) (cs : List LoadContent)
    (c : LoadContent) :
    loadAll parse restore st (cs ++ [c]) =
      ({ st with pendingContent := encodeContent c }, []) := by
  induction cs generalizing st with
  | nil =>
      simp [loadAll, load, hapi]
  | cons c0 cs ih =>
      have h0 : load parse restore st c0 =
          ({ st with pendingContent := encodeContent c0 }, []) := by
        unfold load
        rw [hapi]
      show loadAll parse restore st (c0 :: (cs ++ [c])) = _
      simp only [loadAll, h0]
      rw [ih { st with pendingContent := encodeContent c0 } hapi]
      rfl

/-- C6: loads made while the adapter is unbound are stored as pending
content with no side effects, each later call overwriting the earlier
ones so that only the most recent blob is honoured; the next bindApi
with a non-null instance emits nothing immediately but clears the
pending slot and schedules a deferred one-tick task carrying that blob,
and when the task fires it runs the load and emits ready after the load
completes. -/
theorem c6_pending_content_last_wins (parse : String → Option Value)
    (restore : RestoreFn) (st : AdapterState) (cs : List LoadContent)
    (c : LoadContent) (s : String) (a : ApiState)
    (hapi : st.api = none) (henc : encodeContent c = some s) :
    loadAll parse restore st (cs ++ [c]) =
      ({ st with pendingContent := some s }, [])
    ∧ bindApi { st with pendingContent := some s } (some a) =
        ({ st with api := some a, pendingContent := none }, [], some s)
    ∧ (deferredFire parse restore
          { st with api := some a, pendingContent := none } s).1 =
        (load parse restore
          { st with api := some a, pendingContent := none } (.str s)).1
    ∧ (deferredFire parse restore
          { st with api := some a, pendingContent := none } s).2 =
        (load parse restore
          { st with api := some a, pendingContent := none } (.str s)).2 ++ [.ready] := by
  refine ⟨?_, ?_, ?_, ?_⟩
  · rw [loadAll_unbound parse restore st hapi cs c, henc]
  · rfl
  · rfl
  · rfl

/-- Witness for C6: two unbound loads, the second overwriting the first,
then a bind and the deferred application. -/
theorem c6_pending_content_last_wins_witness :
    loadAll (fun _ => none) (fun _ _ _ => none) initialAdapterState
        ([LoadContent.str "one"] ++ [LoadContent.str "two"]) =
      ({ initialAdapterState with pendingContent := some "two" }, [])
    ∧ bindApi { initialAdapterState with pendingContent := some "two" }
        (some ⟨[], [], []⟩) =
      ({ initialAdapterState with api := some ⟨[], [], []⟩, pendingContent := none },
        [], some "two") := by
  have h := c6_pending_content_last_wins (fun _ => none) (fun _ _ _ => none)
    initialAdapterState [LoadContent.str "one"] (LoadContent.str "two") "two"
    ⟨[], [], []⟩ rfl rfl
  exact ⟨h.1, h.2.1⟩

/-- C7: a bound load whose parsing or hydration fails emits exactly one
error event carrying the human-readable message and the failure detail,
returns normally, and leaves the whole adapter state unchanged: no GUI
write, no dirty-flag change, no baseline change, no pending-content
change. -/
theorem c7_load_failure_leaves_state (parse : String → Option Value)
    (restore : RestoreFn) (st : AdapterState) (a : ApiState) (c : LoadContent)
    (d : LoadErrorDetail) (hapi : st.api = some a)
    (hfail : processContent parse restore c = .error d) :
    load parse restore st c = (st, [.error "Failed to load content" d]) := by
  unfold load
  rw [hapi, hfail]

/-- Witness for C7: a string that the parse oracle rejects. -/
theorem c7_load_failure_leaves_state_witness :
    load (fun _ => none) (fun _ _ _ => none)
        { api := some ⟨[], [], []⟩, dirty := true, pendingContent := some "p",
          lastSavedSnapshot := some "s" } (.str "bad") =
      ({ api := some ⟨[], [], []⟩, dirty := true, pendingContent := some "p",
         lastSavedSnapshot := some "s" },
       [.error "Failed to load content" .parseError]) :=
  c7_load_failure_leaves_state (fun _ => none) (fun _ _ _ => none)
    { api := some ⟨[], [], []⟩, dirty := true, pendingContent := some "p",
      lastSavedSnapshot := some "s" } ⟨[], [], []⟩ (.str "bad") .parseError rfl rfl

/-- A persisted blob in the native schema, with its optional timestamp. -/
def nativeBlobValue (elements : List Value) (appState files : JsObj)
    (updatedAt : Option Int) : Value :=
  .vObj ([("schema", .vStr "solo-board/excalidraw-content"),
          ("schemaVersion", .vNum 1),
          ("elements", .vArr elements),
          ("appState", .vObj appState),
          ("files", .vObj files)] ++
         (match updatedAt with
          | some t => [("updatedAt", .vNum t)]
          | none => []))

/-- On a native-schema blob the content pipeline skips the restore pass
and returns the elements and files verbatim, with only the display
normalization applied to the view-state. -/
theorem processContent_nativeBlob (parse : String → Option Value)
    (restore : RestoreFn) (elements : List Value) (appState files : JsObj)
    (updatedAt : Option Int) :
    processContent parse restore (.obj (nativeBlobValue elements appState files updatedAt)) =
      .ok ⟨elements, normalizeDisplay appState, files⟩ := by
  cases updatedAt <;> rfl

/-- C1 (amended): serialize immediately after a bound load of a
native-schema blob returns the elements and files of the blob
byte-for-byte and the view-state of the blob with the unconditional
display normalization applied (collaborators coercion, background and
export-background defaulting, grid forced off), with the envelope
timestamp freshly taken; in particular the view-state also round-trips
byte-for-byte exactly when it is already display-normalized. -/
theorem c1_native_roundtrip_amended (parse : String → Option Value)
    (restore : RestoreFn) (st : AdapterState) (a : ApiState)
    (elements : List Value) (appState files : JsObj) (updatedAt : Option Int)
    (now : Int) (hapi : st.api = some a) :
    serialize (load parse restore st
        (.obj (nativeBlobValue elements appState files updatedAt))).1 now =
      some ⟨"solo-board/excalidraw-content", 1, elements,
        normalizeDisplay appState, files, now⟩
    ∧ (normalizeDisplay appState = appState →
        serialize (load parse restore st
            (.obj (nativeBlobValue elements appState files updatedAt))).1 now =
          some ⟨"solo-board/excalidraw-content", 1, elements, appState, files, now⟩) := by
  have hload : load parse restore st
      (.obj (nativeBlobValue elements appState files updatedAt)) =
      ({ st with
          api := some ⟨elements, normalizeDisplay appState, files⟩,
          lastSavedSnapshot :=
            some (createSnapshotFromParts elements (normalizeDisplay appState) files),
          pendingContent := none,
          dirty := false },
       [.change false]) := by
    unfold load
    rw [hapi, processContent_nativeBlob]
  rw [hload]
  refine ⟨rfl, ?_⟩
  intro hfix
  rw [hfix]
  rfl

/-- Witness for C1 (amended) at a concrete bound state and a concrete
already-normalized blob. -/
theorem c1_native_roundtrip_amended_witness :
    serialize (load (fun _ => none) (fun _ _ _ => none)
        { api := some ⟨[], [], []⟩, dirty := false, pendingContent := none,
          lastSavedSnapshot := none }
        (.obj (nativeBlobValue [Value.vNum 7]
          [("viewBackgroundColor", Value.vStr "#abcdef"),
           ("exportBackground", Value.vBool false),
           ("gridSize", Value.vNull)]
          [("img", Value.vStr "data")] (some 5)))).1 3 =
      some ⟨"solo-board/excalidraw-content", 1, [Value.vNum 7],
        normalizeDisplay
          [("viewBackgroundColor", Value.vStr "#abcdef"),
           ("exportBackground", Value.vBool false),
           ("gridSize", Value.vNull)],
        [("img", Value.vStr "data")], 3⟩ :=
  (c1_native_roundtrip_amended (fun _ => none) (fun _ _ _ => none)
    { api := some ⟨[], [], []⟩, dirty := false, pendingContent := none,
      lastSavedSnapshot := none } ⟨[], [], []⟩ [Value.vNum 7]
    [("viewBackgroundColor", Value.vStr "#abcdef"),
     ("exportBackground", Value.vBool false),
     ("gridSize", Value.vNull)]
    [("img", Value.vStr "data")] (some 5) 3 rfl).1

/-- Counterexample to C1 as stated: a native blob whose view-state holds
a numeric grid size does not round-trip byte-for-byte, because the load
path unconditionally applies the display normalization, which nulls the
grid size and appends default background keys before the scene reaches
the GUI instance. -/
theorem c1_native_roundtrip_counterexample :
    (serialize (load (fun _ => none) (fun _ _ _ => none)
        { api := some ⟨[], [], []⟩, dirty := false, pendingContent := none,
          lastSavedSnapshot := none }
        (.obj (nativeBlobValue [] [("gridSize", Value.vNum 20)] [] none))).1 0).map
      (fun doc => doc.appState) ≠ some [("gridSize", Value.vNum 20)] := by
  have h : (serialize (load (fun _ => none) (fun _ _ _ => none)
      { api := some ⟨[], [], []⟩, dirty := false, pendingContent := none,
        lastSavedSnapshot := none }
      (.obj (nativeBlobValue [] [("gridSize", Value.vNum 20)] [] none))).1 0).map
        (fun doc => doc.appState) =
      some [("gridSize", Value.vNull), ("viewBackgroundColor", Value.vStr "#ffffff"),
            ("exportBackground", Value.vBool true)] := by
    rfl
  rw [h]
  simp

/-- The single-flight invariant of the coordinator: never more than one
save in flight, and the saving flag is the exact record of an in-flight
save. -/
def SaveInv (s : SaveState) : Prop :=
  s.inFlight ≤ 1 ∧ (s.saving = true ↔ s.inFlight = 1)

/-- The synchronous prefix of performSave preserves the single-flight
invariant, for either trigger. -/
theorem saveInv_performSaveStart {s : SaveState} (hs : SaveInv s)
    (source : SaveSource) : SaveInv (performSaveStart s source) := by
  obtain ⟨h1, h2⟩ := hs
  unfold performSaveStart
  split
  · exact ⟨h1, h2⟩
  · split
    · exact ⟨h1, h2⟩
    · split
      · cases source
        · exact ⟨h1, h2⟩
        · exact ⟨h1, h2⟩
      · rename_i hnotsaving
        have hzero : s.inFlight = 0 := by
          rcases Nat.lt_or_ge s.inFlight 1 with h | h
          · omega
          · exfalso
            have : s.inFlight = 1 := by omega
            have := h2.mpr this
            simp [this] at hnotsaving
        refine ⟨by simp [hzero], by simp [hzero]⟩

/-- Every coordinator step preserves the single-flight invariant. -/
theorem saveInv_step {s t : SaveState} (hs : SaveInv s) (h : SaveStep s t) :
    SaveInv t := by
  obtain ⟨h1, h2⟩ := hs
  cases h with
  | finishLoading => exact ⟨h1, h2⟩
  | startLoading => exact ⟨h1, h2⟩
  | edit => exact ⟨h1, h2⟩
  | debounce => exact saveInv_performSaveStart ⟨h1, h2⟩ .auto
  | manual => exact saveInv_performSaveStart ⟨h1, h2⟩ .manual
  | complete success hpos =>
      have hone : s.inFlight = 1 := Nat.le_antisymm h1 hpos
      simp only [performSaveFinish]
      split
      · exact ⟨by simp [hone], by simp [hone]⟩
      · split
        · exact ⟨by simp [hone], by simp [hone]⟩
        · exact ⟨by simp [hone], by simp [hone]⟩
  | grace =>
      simp only [graceFire]
      split
      · apply saveInv_performSaveStart _ .auto
        exact ⟨h1, h2⟩
      · exact ⟨h1, h2⟩
  | unmount => exact ⟨h1, h2⟩

/-- Every reachable coordinator state satisfies the single-flight
invariant. -/
theorem saveInv_reachable {s : SaveState} (h : ReachableSave s) : SaveInv s := by
  induction h with
  | refl => exact ⟨by simp [initialSaveState], by simp [initialSaveState]⟩
  | tail hr hstep ih => exact saveInv_step ih hstep

/-- C2: in every reachable coordinator state at most one save is in
flight; when a save is in flight and the debounce timer fires on dirty
content, performSave only sets the pending flag and starts nothing; and
when an in-flight save completes while the component is mounted and the
pending flag was set, it consumes the flag and queues exactly one more
save attempt behind the fixed grace delay, with the completed save no
longer in flight, so no two saves ever overlap. -/
theorem c2_autosave_single_flight (s : SaveState) (h : ReachableSave s) :
    s.inFlight ≤ 1
    ∧ (s.loading = false → s.dirty = true → s.saving = true →
        performSaveStart s .auto = { s with pendingAutoSave := true })
    ∧ (s.mounted = true → s.pendingAutoSave = true → ∀ success,
        (performSaveFinish s success).graceQueued = s.graceQueued + 1
        ∧ (performSaveFinish s success).pendingAutoSave = false
        ∧ (performSaveFinish s success).inFlight = s.inFlight - 1
        ∧ (performSaveFinish s success).saving = false) := by
  refine ⟨(saveInv_reachable h).1, ?_, ?_⟩
  · intro hl hd hsv
    unfold performSaveStart
    rw [hl, hd, hsv]
    simp
  · intro hm hp success
    unfold performSaveFinish
    simp [hm, hp]

/-- A reachable coordinator state with a save in flight on dirty
content. -/
def savingExample : SaveState :=
  { loading := false, dirty := true, saving := true, pendingAutoSave := false,
    mounted := true, inFlight := 1, graceQueued := 0 }

/-- The example state is reached by finishing the initial load, editing
once, and letting the debounce timer start the save. -/
theorem savingExample_reachable : ReachableSave savingExample := by
  have h1 : SaveStep initialSaveState { initialSaveState with loading := false } :=
    SaveStep.finishLoading initialSaveState
  have h2 : SaveStep { initialSaveState with loading := false }
      { initialSaveState with loading := false, dirty := true } :=
    SaveStep.edit { initialSaveState with loading := false }
  have h3 : SaveStep { initialSaveState with loading := false, dirty := true }
      savingExample := by
    have := SaveStep.debounce { initialSaveState with loading := false, dirty := true }
    have heq : performSaveStart
        { initialSaveState with loading := false, dirty := true } .auto =
        savingExample := by
      unfold performSaveStart
      simp [initialSaveState, savingExample]
    rw [heq] at this
    exact this
  exact Relation.ReflTransGen.tail
    (Relation.ReflTransGen.tail (Relation.ReflTransGen.single h1) h2) h3

/-- Witness for C2: at the concrete reachable in-flight state, the bound
holds and an automatic trigger only sets the pending flag. -/
theorem c2_autosave_single_flight_witness :
    savingExample.inFlight ≤ 1
    ∧ performSaveStart savingExample .auto =
        { savingExample with pendingAutoSave := true } :=
  ⟨(c2_autosave_single_flight savingExample savingExample_reachable).1,
   (c2_autosave_single_flight savingExample savingExample_reachable).2.1 rfl rfl rfl⟩

end SoloBoard
